import Mathlib

/-!
Verification of the `dpdb` post-mortem core-dump system
(`src/dpdb/core_dump.py`, `src/dpdb/interface.py`, `src/dpdb/__init__.py`)
against its natural-language specification.

The Python code is shallowly embedded: Python dicts become association
lists (`List (String × _)`, unique keys, insertion order preserved),
Python exceptions become `Except`/explicit outcome types (we model
`except Exception` handlers as catching every modelled error; the
`BaseException` level is outside the model), and the unbounded `while`
loop of `create_from_exception` becomes a fuel-indexed function whose
`none` result means the loop does not terminate within the given fuel.
-/

namespace Dpdb

/-! ## BindingSanitizer (`CoreDumpGenerator._serialize_object` / `_clean_dict`)

A Python value is abstracted by the attributes that `_serialize_object`
inspects: whether `callable(obj)` holds, whether it has `__name__`,
`__file__`, `__dict__`, how `pickle.dumps(obj)` behaves, and how
`repr(obj)` behaves.  String-typed fields hold the text the code would
interpolate (`obj.__name__`, `obj.__file__`, `hex(id(obj))`,
`type(obj).__name__`, `repr(obj)`). -/

/-- Behaviour of `pickle.dumps(obj)`: succeeds; raises one of the caught
classes (`TypeError`, `pickle.PicklingError`, `AttributeError`); or raises
some other `Exception`, which escapes the inner `try` of
`_serialize_object` and is only caught by `_clean_dict`. -/
inductive PickleRes where
  | ok
  | caughtFail
  | uncaughtFail
deriving DecidableEq, Repr

/-- Abstraction of a Python object, carrying exactly the observations made
by `CoreDumpGenerator._serialize_object`. -/
structure PyObj where
  isCallable : Bool
  hasName : Bool
  name : String
  hasFile : Bool
  file : String
  idHex : String
  typeName : String
  pickleRes : PickleRes
  hasDict : Bool
  /-- `some s` when `repr(obj)` returns `s`; `none` when `repr` raises. -/
  reprRes : Option String
deriving DecidableEq, Repr

/-- A sanitized binding value: either the original object (returned when it
pickles) or one of the descriptor / marker strings. -/
inductive SerVal where
  | val (o : PyObj)
  | str (s : String)
deriving DecidableEq, Repr

/-- `f"<function {obj.__name__} at {hex(id(obj))}>"` -/
def funcDescr (o : PyObj) : String :=
  "<function " ++ o.name ++ " at " ++ o.idHex ++ ">"

/-- `f"<module '{obj.__name__}' from '{obj.__file__}'>"` -/
def moduleDescr (o : PyObj) : String :=
  "<module " ++ "'" ++ o.name ++ "'" ++ " from " ++ "'" ++ o.file ++ "'" ++ ">"

/-- `f"<{type(obj).__name__} object at {hex(id(obj))}>"` -/
def typeIdDescr (o : PyObj) : String :=
  "<" ++ o.typeName ++ " object at " ++ o.idHex ++ ">"

/-- `f"<unprintable {type(obj).__name__} object>"` -/
def unprintableDescr (o : PyObj) : String :=
  "<unprintable " ++ o.typeName ++ " object>"

/-- `f"<failed to serialize {type(value).__name__}>"` (the `_clean_dict`
per-key catch-all). -/
def failDescr (o : PyObj) : String :=
  "<failed to serialize " ++ o.typeName ++ ">"

/-- `CoreDumpGenerator._serialize_object`.  `Except.error ()` models an
exception escaping the function (possible only when `pickle.dumps` raises
an `Exception` outside the caught tuple). -/
def serialize_object (o : PyObj) : Except Unit SerVal :=
  if o.isCallable && o.hasName then .ok (.str (funcDescr o))
  else if o.hasFile && o.hasName then .ok (.str (moduleDescr o))
  else
    match o.pickleRes with
    | .ok => .ok (.val o)
    | .uncaughtFail => .error ()
    | .caughtFail =>
        .ok (.str (if o.hasDict then typeIdDescr o
                   else match o.reprRes with
                        | some s => s
                        | none => unprintableDescr o))

/-- The per-key body of `_clean_dict`: `_serialize_object(value)` with the
`except Exception` catch-all substituting the failure marker. -/
def serializeSafe (o : PyObj) : SerVal :=
  match serialize_object o with
  | .ok sv => sv
  | .error _ => .str (failDescr o)

/-- `CoreDumpGenerator._clean_dict`, iterating over the dict items in
insertion order. -/
def clean_dict : List (String × PyObj) → List (String × SerVal)
  | [] => []
  | (k, v) :: rest => (k, serializeSafe v) :: clean_dict rest

/-- The value forms enumerated by the claim: function descriptor, module
descriptor, original value (if picklable), type-plus-identity descriptor,
or a generic unprintable/failed-to-serialize marker. -/
def claimedForms (o : PyObj) (sv : SerVal) : Prop :=
  sv = .str (funcDescr o) ∨ sv = .str (moduleDescr o) ∨
  (sv = .val o ∧ o.pickleRes = .ok) ∨ sv = .str (typeIdDescr o) ∨
  sv = .str (unprintableDescr o) ∨ sv = .str (failDescr o)

instance (o : PyObj) (sv : SerVal) : Decidable (claimedForms o sv) := by
  unfold claimedForms; infer_instance

/-- The forms the code actually produces: the claimed ones plus the bare
`repr(obj)` string, returned when an unpicklable value has no `__dict__`
and its `repr` succeeds. -/
def actualForms (o : PyObj) (sv : SerVal) : Prop :=
  claimedForms o sv ∨ (∃ s, o.reprRes = some s ∧ sv = .str s)

/-- A non-callable, unpicklable object without `__dict__` whose `repr`
succeeds, e.g. the Python value `[lambda: 1]` (a list containing a
lambda): not picklable, lists have no `__dict__`, `repr` works. -/
def reprOnlyObj : PyObj :=
  { isCallable := false, hasName := false, name := "", hasFile := false,
    file := "", idHex := "0x7f01", typeName := "list",
    pickleRes := .caughtFail, hasDict := false,
    reprRes := some "[<function <lambda> at 0x7f02>]" }

theorem actualForms_serializeSafe (o : PyObj) : actualForms o (serializeSafe o) := by
  unfold actualForms claimedForms serializeSafe serialize_object
  rcases o with ⟨ic, hn, nm, hf, fl, idh, tn, pr, hd, rr⟩
  rcases pr <;> rcases ic <;> rcases hn <;> rcases hf <;> rcases hd <;> rcases rr <;> simp

theorem clean_dict_eq_map (d : List (String × PyObj)) :
    clean_dict d = d.map (fun p => (p.1, serializeSafe p.2)) := by
  induction d with
  | nil => rfl
  | cons p rest ih => cases p; simp [clean_dict, ih]

/-- C1 counterexample: sanitizing `{"x": [lambda: 1]}` stores the bare
`repr` string of the value, which is none of the five forms the claim
enumerates. -/
theorem c1_counterexample :
    clean_dict [("x", reprOnlyObj)]
      = [("x", SerVal.str "[<function <lambda> at 0x7f02>]")] ∧
    ¬ claimedForms reprOnlyObj (SerVal.str "[<function <lambda> at 0x7f02>]") := by
  constructor
  · rfl
  · decide

/-- C1 (amended): `_clean_dict` never raises (it is a total function in
this model, every modelled `Exception` being caught per key), preserves
the key sequence exactly, converts each entry independently of all other
entries, and every produced value is a function descriptor, a module
descriptor, the original value (if picklable), a type-plus-identity
descriptor, the value's `repr` string (unpicklable, no `__dict__`, `repr`
succeeds), or a generic unprintable/failed-to-serialize marker. -/
theorem c1_sanitizer_amended (d : List (String × PyObj)) :
    (clean_dict d).map Prod.fst = d.map Prod.fst ∧
    clean_dict d = d.map (fun p => (p.1, serializeSafe p.2)) ∧
    (∀ p ∈ clean_dict d, ∃ q ∈ d, p.1 = q.1 ∧ actualForms q.2 p.2) := by
  refine ⟨?_, clean_dict_eq_map d, ?_⟩
  · rw [clean_dict_eq_map]; simp
  · intro p hp
    rw [clean_dict_eq_map] at hp
    rcases List.mem_map.mp hp with ⟨q, hq, hpq⟩
    exact ⟨q, hq, by rw [← hpq], by rw [← hpq]; exact actualForms_serializeSafe q.2⟩

/-- Witness for `c1_sanitizer_amended` at a concrete two-key mapping whose
second value's conversion degrades to a marker while the first key's entry
is untouched. -/
theorem c1_sanitizer_amended_witness :
    (clean_dict [("a", reprOnlyObj),
        ("b", { reprOnlyObj with pickleRes := PickleRes.uncaughtFail })]).map Prod.fst
      = ["a", "b"] ∧
    (∀ p ∈ clean_dict [("a", reprOnlyObj),
        ("b", { reprOnlyObj with pickleRes := PickleRes.uncaughtFail })],
      ∃ q ∈ [("a", reprOnlyObj),
        ("b", { reprOnlyObj with pickleRes := PickleRes.uncaughtFail })],
        p.1 = q.1 ∧ actualForms q.2 p.2) := by
  have h := c1_sanitizer_amended
    [("a", reprOnlyObj), ("b", { reprOnlyObj with pickleRes := PickleRes.uncaughtFail })]
  exact ⟨h.1, h.2.2⟩

/-! ## StackWalker (`create_from_exception` / `create_from_current_stack`)

An activation record is abstracted by the data the walker reads from it:
source path, function name, current line, the two binding dicts, and how
reading/decoding the record's source file behaves. -/

/-- Python `str.rstrip()` with no argument: remove trailing whitespace. -/
def pyRstrip (s : String) : String :=
  String.mk ((s.data.reverse.dropWhile Char.isWhitespace).reverse)

/-- Python `str.endswith`, on exact character sequences. -/
def pyEndsWith (s suf : String) : Bool :=
  suf.data.isSuffixOf s.data

/-- How opening/decoding a record's source file behaves.
`openFail`: `open` raises `OSError`/`IOError`.
`utf8Ok lines`: the file opens and decodes as UTF-8 into `lines`
(`readlines`, trailing newlines kept).
`utf8Fail encLines replaceLines`: the file opens but UTF-8 decoding raises
`UnicodeDecodeError`; `encLines` is `some l` when one of the remaining
encodings tried by `create_from_current_stack` (`utf-8-sig`, `latin-1`,
`cp1252`) decodes it into `l`; `replaceLines` is the
`decode("utf-8", errors="replace")` result of the raw bytes. -/
inductive ReadOutcome where
  | openFail
  | utf8Ok (lines : List String)
  | utf8Fail (encLines : Option (List String)) (replaceLines : List String)
deriving DecidableEq, Repr

/-- One activation record as seen by the walkers. -/
structure TBEntry where
  filename : String
  functionName : String
  lineNumber : Nat
  localsD : List (String × PyObj)
  globalsD : List (String × PyObj)
  readRes : ReadOutcome
deriving DecidableEq, Repr

/-- The `FrameInfo` dataclass of `core_dump.py`. -/
structure FrameInfo where
  filename : String
  function_name : String
  line_number : Nat
  code_context : List String
  locals_dict : List (String × SerVal)
  globals_dict : List (String × SerVal)
  frame_id : Nat
  context_start_line : Nat
deriving DecidableEq, Repr

/-- The globals comprehension of both walkers:
`{k: v for k, v in frame.f_globals.items() if not k.startswith("__") or k in ["__name__", "__file__"]}`. -/
def globalsFilter (d : List (String × PyObj)) : List (String × PyObj) :=
  d.filter fun p => !p.1.startsWith "__" || p.1 == "__name__" || p.1 == "__file__"

/-- Construction of one `FrameInfo`, shared by both walkers.  `lo` is the
line list of the successfully read source (`some lines`), or `none` when
`open` raised and the placeholder context is substituted.  With lines:
`context_start = max(0, current_line - 4)` (0-based),
`context_end = min(len(all_lines), current_line + 3)`, the context is the
slice `all_lines[context_start:context_end]` with each line right-stripped,
and `context_start_line = context_start + 1`. -/
def mkFrame (e : TBEntry) (fid : Nat) (lo : Option (List String)) : FrameInfo :=
  match lo with
  | some lines =>
      let contextStart := e.lineNumber - 4
      let contextEnd := min lines.length (e.lineNumber + 3)
      { filename := e.filename
        function_name := e.functionName
        line_number := e.lineNumber
        code_context := ((lines.drop contextStart).take (contextEnd - contextStart)).map pyRstrip
        locals_dict := clean_dict e.localsD
        globals_dict := clean_dict (globalsFilter e.globalsD)
        frame_id := fid
        context_start_line := contextStart + 1 }
  | none =>
      { filename := e.filename
        function_name := e.functionName
        line_number := e.lineNumber
        code_context := ["<source not available>"]
        locals_dict := clean_dict e.localsD
        globals_dict := clean_dict (globalsFilter e.globalsD)
        frame_id := fid
        context_start_line := e.lineNumber }

/-- The `while tb is not None` loop of `create_from_exception`, with
explicit fuel: `none` means the loop has not finished within `fuel`
iterations.  Iterations skip engine records (`filename` ending in
`core_dump.py`) after advancing `tb`; a `UnicodeDecodeError` executes
`continue` WITHOUT advancing `tb` (the loop state repeats, so the loop
never terminates); otherwise the frame is appended and the id advanced. -/
def walkExc : Nat → List TBEntry → Nat → List FrameInfo → Option (List FrameInfo)
  | 0, _, _, _ => none
  | _ + 1, [], _, acc => some acc
  | fuel + 1, e :: rest, fid, acc =>
    if pyEndsWith e.filename "core_dump.py" then walkExc fuel rest fid acc
    else
      match e.readRes with
      | .utf8Fail _ _ => walkExc fuel (e :: rest) fid acc
      | .utf8Ok lines => walkExc fuel rest (fid + 1) (acc ++ [mkFrame e fid (some lines)])
      | .openFail => walkExc fuel rest (fid + 1) (acc ++ [mkFrame e fid none])

/-- The effective source lines in `create_from_current_stack`: the first
encoding that works, else the bytes decoded with `errors="replace"`; `none`
only when `open` itself raised. -/
def effLinesStack : ReadOutcome → Option (List String)
  | .openFail => none
  | .utf8Ok lines => some lines
  | .utf8Fail (some lines) _ => some lines
  | .utf8Fail none replaceLines => some replaceLines

/-- The `while current_frame is not None` loop of
`create_from_current_stack`; every branch advances `f_back`, so it is
structural recursion over the frame chain. -/
def walkStack : List TBEntry → Nat → List FrameInfo
  | [], _ => []
  | e :: rest, fid =>
    if pyEndsWith e.filename "core_dump.py" then walkStack rest fid
    else mkFrame e fid (effLinesStack e.readRes) :: walkStack rest (fid + 1)

/-- Process-level metadata read by the generators (`datetime.now`,
`sys.version`, `os.getcwd`, `sys.argv`, `os.environ`). -/
structure ProcEnv where
  timestamp : String
  pythonVersion : String
  workingDir : String
  commandLine : List String
  envVars : List (String × String)
deriving DecidableEq, Repr

/-- The `CoreDump` dataclass of `core_dump.py`.  `exception_info` keeps the
first two components of the Python triple (the third is always `None`). -/
structure CoreDump where
  timestamp : String
  exception_info : Option (String × String)
  traceback_text : String
  frames : List FrameInfo
  current_frame_id : Nat
  python_version : String
  working_directory : String
  command_line : List String
  environment_vars : List (String × String)
deriving DecidableEq, Repr

/-- `CoreDumpGenerator.create_from_exception`.  The traceback is given
outermost (oldest) record first, which is Python's `tb_next` order.  The
result is `none` when the capture loop does not terminate within `fuel`
iterations. -/
def create_from_exception (fuel : Nat) (env : ProcEnv)
    (excInfo : Option (String × String)) (tbText : String)
    (entries : List TBEntry) : Option CoreDump :=
  (walkExc fuel entries 0 []).map fun frames =>
    { timestamp := env.timestamp
      exception_info := excInfo
      traceback_text := tbText
      frames := frames
      current_frame_id := if frames.isEmpty then 0 else frames.length - 1
      python_version := env.pythonVersion
      working_directory := env.workingDir
      command_line := env.commandLine
      environment_vars := env.envVars.filter fun p => !p.1.startsWith "_" }

/-- `CoreDumpGenerator.create_from_current_stack`.  The entries are given
in `f_back` order: the immediate caller of the generator (the innermost
user frame) first, outward to the oldest frame.  Note the Python
constructor call omits `environment_vars`, so the dataclass default `{}`
applies. -/
def create_from_current_stack (env : ProcEnv) (entries : List TBEntry) : CoreDump :=
  { timestamp := env.timestamp
    exception_info := none
    traceback_text := "<Manual core dump - no exception>"
    frames := walkStack entries 0
    current_frame_id := 0
    python_version := env.pythonVersion
    working_directory := env.workingDir
    command_line := env.commandLine
    environment_vars := [] }

/-! ## C3: the context window -/

/-- Modelled from the spec's words: the window "spans current line −3..+3
clipped to file bounds" — the source lines numbered `max 1 (cur − 3)`
through `min lines.length (cur + 3)` (1-based), each right-stripped. -/
def specWindow (lines : List String) (cur : Nat) : List String :=
  ((lines.take (min lines.length (cur + 3))).drop (max 1 (cur - 3) - 1)).map pyRstrip

/-- C3: for a captured frame whose source file is readable (so the current
line is a line of the read file), the stored window is exactly the
current-line ±3 slice clipped to file bounds, the stored window start is
`max 1 (line − 3)`, and the window-start arithmetic is self-consistent;
for an unreadable file the window is the single placeholder line with
window start equal to the current line. -/
theorem c3_context_window (e : TBEntry) (fid : Nat) (lines : List String)
    (h1 : 1 ≤ e.lineNumber) (h2 : e.lineNumber ≤ lines.length) :
    (mkFrame e fid (some lines)).code_context = specWindow lines e.lineNumber ∧
    (mkFrame e fid (some lines)).context_start_line = max 1 (e.lineNumber - 3) ∧
    (mkFrame e fid (some lines)).context_start_line ≤ e.lineNumber ∧
    e.lineNumber ≤ (mkFrame e fid (some lines)).context_start_line
        + (mkFrame e fid (some lines)).code_context.length - 1 ∧
    (mkFrame e fid none).code_context = ["<source not available>"] ∧
    (mkFrame e fid none).context_start_line = e.lineNumber := by
  have hstart : max 1 (e.lineNumber - 3) - 1 = e.lineNumber - 4 := by omega
  have hle : e.lineNumber - 4 ≤ min lines.length (e.lineNumber + 3) := by omega
  refine ⟨?_, ?_, ?_, ?_, rfl, rfl⟩
  · show ((lines.drop (e.lineNumber - 4)).take
        (min lines.length (e.lineNumber + 3) - (e.lineNumber - 4))).map pyRstrip
      = specWindow lines e.lineNumber
    unfold specWindow
    rw [hstart, List.take_drop,
      show e.lineNumber - 4 + (min lines.length (e.lineNumber + 3) - (e.lineNumber - 4))
        = min lines.length (e.lineNumber + 3) by omega]
  · show e.lineNumber - 4 + 1 = max 1 (e.lineNumber - 3)
    omega
  · show e.lineNumber - 4 + 1 ≤ e.lineNumber
    omega
  · show e.lineNumber ≤ e.lineNumber - 4 + 1
        + (((lines.drop (e.lineNumber - 4)).take
            (min lines.length (e.lineNumber + 3) - (e.lineNumber - 4))).map pyRstrip).length - 1
    simp only [List.length_map, List.length_take, List.length_drop]
    omega

/-- A concrete readable activation record used as a witness input. -/
def exEntry : TBEntry :=
  { filename := "app.py", functionName := "handler", lineNumber := 5,
    localsD := [], globalsD := [],
    readRes := .utf8Ok ["a\n", "b\n", "c\n", "d\n", "e\n", "f\n", "g\n", "h\n"] }

/-- Witness for `c3_context_window` at line 5 of an eight-line file. -/
theorem c3_context_window_witness :
    (mkFrame exEntry 0 (some ["a\n", "b\n", "c\n", "d\n", "e\n", "f\n", "g\n", "h\n"])).code_context
      = specWindow ["a\n", "b\n", "c\n", "d\n", "e\n", "f\n", "g\n", "h\n"] exEntry.lineNumber ∧
    (mkFrame exEntry 0 (some ["a\n", "b\n", "c\n", "d\n", "e\n", "f\n", "g\n", "h\n"])).context_start_line
      = max 1 (exEntry.lineNumber - 3) ∧
    (mkFrame exEntry 0 (some ["a\n", "b\n", "c\n", "d\n", "e\n", "f\n", "g\n", "h\n"])).context_start_line
      ≤ exEntry.lineNumber ∧
    exEntry.lineNumber
      ≤ (mkFrame exEntry 0 (some ["a\n", "b\n", "c\n", "d\n", "e\n", "f\n", "g\n", "h\n"])).context_start_line
        + (mkFrame exEntry 0 (some ["a\n", "b\n", "c\n", "d\n", "e\n", "f\n", "g\n", "h\n"])).code_context.length - 1 ∧
    (mkFrame exEntry 0 none).code_context = ["<source not available>"] ∧
    (mkFrame exEntry 0 none).context_start_line = exEntry.lineNumber :=
  c3_context_window exEntry 0 ["a\n", "b\n", "c\n", "d\n", "e\n", "f\n", "g\n", "h\n"]
    (by decide) (by decide)

/-! ## C2: undecodable source files -/

/-- A record whose source file opens but raises `UnicodeDecodeError` under
UTF-8 — e.g. a `payload.py` containing latin-1 bytes; decoding with
`errors="replace"` would yield one line. -/
def undecodableEntry : TBEntry :=
  { filename := "payload.py", functionName := "work", lineNumber := 1,
    localsD := [], globalsD := [],
    readRes := .utf8Fail none ["x = 1\n"] }

theorem walkExc_stuck (e : TBEntry) (o : Option (List String)) (r : List String)
    (he : e.readRes = .utf8Fail o r)
    (hskip : pyEndsWith e.filename "core_dump.py" = false) :
    ∀ fuel rest fid acc, walkExc fuel (e :: rest) fid acc = none := by
  intro fuel
  induction fuel with
  | zero => intro rest fid acc; rfl
  | succ n ih =>
    intro rest fid acc
    simp only [walkExc, hskip, Bool.false_eq_true, if_false, he]
    exact ih rest fid acc

/-- C2 (code bug): on a traceback record whose source file opens but is
not UTF-8-decodable, `create_from_exception` executes `continue` without
advancing `tb`, so the capture loop never terminates (it yields no dump
for any amount of fuel) — the binary-mode `errors="replace"` fallback at
lines 116–120 is unreachable.  By contrast the identically-commented loop
of `create_from_current_stack` does fall back and emits the frame built
from the replacement-decoded lines. -/
theorem c2_undecodable_source :
    (∀ fuel env excInfo tbText,
        create_from_exception fuel env excInfo tbText [undecodableEntry] = none) ∧
    walkStack [undecodableEntry] 0
      = [mkFrame undecodableEntry 0 (some ["x = 1\n"])] := by
  constructor
  · intro fuel env excInfo tbText
    unfold create_from_exception
    rw [walkExc_stuck undecodableEntry none ["x = 1\n"] rfl rfl fuel [] 0 []]
    rfl
  · rfl

/-! ## C4: frame ids and focus index -/

theorem mkFrame_frame_id (e : TBEntry) (fid : Nat) (lo : Option (List String)) :
    (mkFrame e fid lo).frame_id = fid := by
  cases lo <;> rfl

theorem walkExc_frames_ids : ∀ (fuel : Nat) (es : List TBEntry) (fid : Nat)
    (acc out : List FrameInfo), walkExc fuel es fid acc = some out →
    ∃ tail, out = acc ++ tail ∧
      tail.map FrameInfo.frame_id = List.range' fid tail.length := by
  intro fuel
  induction fuel with
  | zero => intro es fid acc out h; simp [walkExc] at h
  | succ n ih =>
    intro es fid acc out h
    cases es with
    | nil =>
      simp only [walkExc, Option.some.injEq] at h
      exact ⟨[], by simp [h], by simp⟩
    | cons e rest =>
      by_cases hskip : pyEndsWith e.filename "core_dump.py"
      · simp only [walkExc, hskip, if_true] at h
        exact ih rest fid acc out h
      · simp only [walkExc, hskip, Bool.false_eq_true, if_false] at h
        cases hr : e.readRes with
        | utf8Fail o r =>
          rw [hr] at h
          exact ih (e :: rest) fid acc out h
        | utf8Ok lines =>
          rw [hr] at h
          obtain ⟨tail, ht, hids⟩ := ih rest (fid + 1) (acc ++ [mkFrame e fid (some lines)]) out h
          refine ⟨mkFrame e fid (some lines) :: tail, by simpa using ht, ?_⟩
          simp [hids, List.range'_succ, mkFrame_frame_id]
        | openFail =>
          rw [hr] at h
          obtain ⟨tail, ht, hids⟩ := ih rest (fid + 1) (acc ++ [mkFrame e fid none]) out h
          refine ⟨mkFrame e fid none :: tail, by simpa using ht, ?_⟩
          simp [hids, List.range'_succ, mkFrame_frame_id]

theorem walkStack_ids (es : List TBEntry) : ∀ (fid : Nat),
    (walkStack es fid).map FrameInfo.frame_id
      = List.range' fid (walkStack es fid).length := by
  induction es with
  | nil => intro fid; simp [walkStack]
  | cons e rest ih =>
    intro fid
    by_cases hskip : pyEndsWith e.filename "core_dump.py"
    · simp [walkStack, hskip, ih]
    · simp [walkStack, hskip, ih, List.range'_succ, mkFrame_frame_id]

/-- A concrete process environment used in counterexamples and witnesses. -/
def env0 : ProcEnv :=
  { timestamp := "2024-01-01T00:00:00", pythonVersion := "3.11.0",
    workingDir := "/w", commandLine := ["prog.py"], envVars := [] }

/-- The second-oldest activation record of the counterexample call chain:
the immediate caller of `dump`, i.e. the innermost user frame. -/
def innerE : TBEntry :=
  { filename := "app.py", functionName := "inner", lineNumber := 9,
    localsD := [], globalsD := [], readRes := .openFail }

/-- The oldest activation record of the counterexample call chain. -/
def outerE : TBEntry :=
  { filename := "app.py", functionName := "outer", lineNumber := 3,
    localsD := [], globalsD := [], readRes := .openFail }

/-- C4 counterexample: `create_from_current_stack` receives the frame
chain in `f_back` order, innermost caller first (here `outer` calls
`inner`, `inner` calls `dump`, so the walk order is `inner`, `outer`).
The resulting ids are `inner ↦ 0`, `outer ↦ 1`: the oldest call (`outer`)
gets the HIGHEST id, not the lowest, and the focus index 0 designates the
innermost frame, not the outermost one, contradicting the claim. -/
theorem c4_counterexample :
    (create_from_current_stack env0 [innerE, outerE]).frames.map
        (fun f => (f.function_name, f.frame_id)) = [("inner", 0), ("outer", 1)] ∧
    (create_from_current_stack env0 [innerE, outerE]).current_frame_id = 0 ∧
    ¬ (∀ f ∈ (create_from_current_stack env0 [innerE, outerE]).frames,
        f.function_name = "outer" → f.frame_id = 0) := by
  refine ⟨by rfl, rfl, ?_⟩
  intro hall
  have := hall (mkFrame outerE 1 none) (by rw [show (create_from_current_stack env0
    [innerE, outerE]).frames = [mkFrame innerE 0 none, mkFrame outerE 1 none] from rfl]; simp) rfl
  simp [mkFrame_frame_id] at this

/-- C4 (amended): both entry points assign contiguous ids `0..N−1` in walk
order and keep the focus inside `[0, N−1]` when frames exist;
`create_from_exception` (when its loop terminates) walks the traceback
oldest-first, so the oldest call has id 0 and the focus is the innermost
frame `N−1` (0 when empty); `create_from_current_stack` walks `f_back`
from the immediate caller outward, so id 0 belongs to the INNERMOST
walked record — which is also the frame the focus 0 designates — and the
oldest call gets the highest id. -/
theorem c4_ids_and_focus_amended :
    (∀ (fuel : Nat) (env : ProcEnv) (excInfo : Option (String × String))
        (tbText : String) (entries : List TBEntry) (dump : CoreDump),
      create_from_exception fuel env excInfo tbText entries = some dump →
      dump.frames.map FrameInfo.frame_id = List.range dump.frames.length ∧
      dump.current_frame_id
        = (if dump.frames.isEmpty then 0 else dump.frames.length - 1) ∧
      (dump.frames ≠ [] → dump.current_frame_id < dump.frames.length)) ∧
    (∀ (env : ProcEnv) (entries : List TBEntry),
      (create_from_current_stack env entries).frames.map FrameInfo.frame_id
        = List.range (create_from_current_stack env entries).frames.length ∧
      (create_from_current_stack env entries).current_frame_id = 0 ∧
      ((create_from_current_stack env entries).frames ≠ [] →
        (create_from_current_stack env entries).current_frame_id
          < (create_from_current_stack env entries).frames.length)) ∧
    (∀ (env : ProcEnv) (e : TBEntry) (rest : List TBEntry),
      pyEndsWith e.filename "core_dump.py" = false →
      (create_from_current_stack env (e :: rest)).frames.head?
        = some (mkFrame e 0 (effLinesStack e.readRes))) := by
  refine ⟨?_, ?_, ?_⟩
  · intro fuel env excInfo tbText entries dump h
    unfold create_from_exception at h
    obtain ⟨frames, hw, hd⟩ := Option.map_eq_some'.mp h
    obtain ⟨tail, ht, hids⟩ := walkExc_frames_ids fuel entries 0 [] frames hw
    simp only [List.nil_append] at ht
    subst ht
    have hframes : dump.frames = frames := by rw [← hd]
    have hfocus : dump.current_frame_id
        = (if frames.isEmpty then 0 else frames.length - 1) := by rw [← hd]
    refine ⟨?_, by rw [hframes, hfocus], ?_⟩
    · rw [hframes, hids, List.range_eq_range']
    · intro hne
      rw [hframes] at hne ⊢
      rw [hfocus]
      have : 0 < frames.length := List.length_pos.mpr hne
      simp only [List.isEmpty_eq_false.mpr hne, if_false, Bool.false_eq_true]
      omega
  · intro env entries
    refine ⟨?_, rfl, ?_⟩
    · show (walkStack entries 0).map FrameInfo.frame_id
        = List.range (walkStack entries 0).length
      rw [walkStack_ids, List.range_eq_range']
    · intro hne
      exact List.length_pos.mpr hne
  · intro env e rest hskip
    show (walkStack (e :: rest) 0).head? = _
    simp [walkStack, hskip]

/-- The exception dump built from the single readable record `exEntry`
(fuel 3 suffices for one record). -/
def exDump : CoreDump :=
  (create_from_exception 3 env0 none "tb" [exEntry]).getD
    (create_from_current_stack env0 [])

/-- Witness for `c4_ids_and_focus_amended` on a one-frame exception dump
and the two-frame manual dump. -/
theorem c4_ids_and_focus_amended_witness :
    exDump.frames.map FrameInfo.frame_id = List.range exDump.frames.length ∧
    exDump.current_frame_id < exDump.frames.length ∧
    (create_from_current_stack env0 [innerE, outerE]).current_frame_id = 0 ∧
    (create_from_current_stack env0 [innerE, outerE]).frames.head?
      = some (mkFrame innerE 0 (effLinesStack innerE.readRes)) := by
  have h := c4_ids_and_focus_amended
  have h1 := h.1 3 env0 none "tb" [exEntry] exDump rfl
  exact ⟨h1.1, h1.2.2 (by decide), (h.2.1 env0 [innerE, outerE]).2.1,
    h.2.2 env0 innerE [outerE] (by decide)⟩

/-! ## CrashInterceptor (`install_exception_handler` / `_core_dump_wrapper`)

Uncaught failures are abstracted by their class (KeyboardInterrupt,
SystemExit, or an ordinary Exception) and their `str(exc_value)` text.
Creation of the dump itself is assumed to terminate here (cf. C2);
`saveOk` says whether `save_core_dump` succeeds or raises. -/

/-- `needle.data` occurs as a contiguous substring of the second list —
Python's `needle in hay`. -/
def listContainsSub (needle : List Char) : List Char → Bool
  | [] => needle.isEmpty
  | c :: t => needle.isPrefixOf (c :: t) || listContainsSub needle t

/-- Python `needle in hay` on strings. -/
def pyIn (needle hay : String) : Bool :=
  listContainsSub needle.data hay.data

/-- The signal-name fragments scanned for in `str(exc_value).lower()`. -/
def signalNames : List String := ["sigterm", "sigint", "sigkill", "signal"]

/-- Python `str.lower()` (character-wise lowercasing; the signal names
scanned for are plain ASCII). -/
def pyLower (s : String) : String :=
  String.mk (s.data.map Char.toLower)

/-- `any(signal_name in exc_str for signal_name in [...])` with
`exc_str = str(exc_value).lower()`. -/
def signalRelated (msg : String) : Bool :=
  signalNames.any fun t => pyIn t (pyLower msg)

/-- Class of an uncaught failure as distinguished by the hooks. -/
inductive PyExcClass where
  | keyboardInterrupt
  | systemExit
  | otherExc
deriving DecidableEq, Repr

/-- An uncaught failure: its class and its `str(exc_value)` text. -/
structure ExcInfo where
  excClass : PyExcClass
  msg : String
deriving DecidableEq, Repr

/-- The condition under which the hooks pass the failure through without a
snapshot (stated from the claim): user interruption, deliberate
termination, or a termination-signal name in the message text. -/
def interceptPolicy (e : ExcInfo) : Bool :=
  e.excClass = .keyboardInterrupt || e.excClass = .systemExit || signalRelated e.msg

/-- Observable outcome of the `exception_handler` installed by
`install_exception_handler`. -/
inductive HookOutcome where
  /-- no snapshot attempted; `sys.__excepthook__` called on the original failure -/
  | passthrough
  /-- snapshot created and saved, then `sys.__excepthook__` called -/
  | snapshotSaved
  /-- snapshot created but `save_core_dump` raised: the save failure escapes
      the hook and `sys.__excepthook__` is never called -/
  | snapshotSaveRaised
deriving DecidableEq, Repr

/-- The `exception_handler` closure of `install_exception_handler`:
KeyboardInterrupt and SystemExit are forwarded to `sys.__excepthook__`
unmodified, as is any failure whose lowercased message contains a signal
name; every other failure triggers dump creation and `save_core_dump`,
followed (only if the save returned) by `sys.__excepthook__`. -/
def exception_handler (e : ExcInfo) (saveOk : Bool) : HookOutcome :=
  if e.excClass = .keyboardInterrupt then .passthrough
  else if e.excClass = .systemExit then .passthrough
  else if signalRelated e.msg then .passthrough
  else if saveOk then .snapshotSaved else .snapshotSaveRaised

/-- Observable outcome of `_core_dump_wrapper` around a worker target. -/
inductive WrapOutcome where
  /-- the target returned normally -/
  | returned
  /-- the original failure was re-raised; the flag records whether a
      snapshot was saved first -/
  | reraisedOriginal (snapshotSaved : Bool)
  /-- `save_core_dump` raised: its failure propagates instead of the bare
      `raise` of the original one -/
  | raisedSaveError
deriving DecidableEq, Repr

/-- `_core_dump_wrapper(target, ...)`: run the target; re-raise
KeyboardInterrupt/SystemExit and signal-related failures without a
snapshot; otherwise save a snapshot and re-raise — unless the save itself
raises, in which case that failure propagates before the bare `raise`. -/
def core_dump_wrapper (tr : Except ExcInfo Unit) (saveOk : Bool) : WrapOutcome :=
  match tr with
  | .ok _ => .returned
  | .error e =>
    if e.excClass = .keyboardInterrupt ∨ e.excClass = .systemExit then
      .reraisedOriginal false
    else if signalRelated e.msg then .reraisedOriginal false
    else if saveOk then .reraisedOriginal true else .raisedSaveError

/-- Whether a hook outcome forwards the original failure onward (to
`sys.__excepthook__`). -/
def forwardsOriginal : HookOutcome → Bool
  | .passthrough => true
  | .snapshotSaved => true
  | .snapshotSaveRaised => false

/-- C5 counterexample: for an ordinary failure whose snapshot write fails,
the top-level hook never reaches `sys.__excepthook__` (the save failure
escapes instead) and the worker wrapper propagates the save failure in
place of re-raising the original one — the claimed "re-raise regardless of
whether the snapshot write succeeded" does not hold. -/
theorem c5_counterexample :
    exception_handler ⟨.otherExc, "boom"⟩ false = .snapshotSaveRaised ∧
    forwardsOriginal (exception_handler ⟨.otherExc, "boom"⟩ false) = false ∧
    core_dump_wrapper (.error ⟨.otherExc, "boom"⟩) false = .raisedSaveError := by
  decide

/-- C5 (amended): the installed hooks pass KeyboardInterrupt, SystemExit
and signal-named failures through unmodified with no snapshot; every other
uncaught failure triggers a snapshot save, after which the original
failure is re-raised / forwarded to the original hook PROVIDED the save
returned; when the save raises, the save failure propagates instead and
the original hook is not invoked. -/
theorem c5_interceptor_amended :
    (∀ (e : ExcInfo) (saveOk : Bool), interceptPolicy e = true →
        exception_handler e saveOk = .passthrough ∧
        core_dump_wrapper (.error e) saveOk = .reraisedOriginal false) ∧
    (∀ (e : ExcInfo) (saveOk : Bool), interceptPolicy e = false →
        exception_handler e saveOk
            = (if saveOk then .snapshotSaved else .snapshotSaveRaised) ∧
        core_dump_wrapper (.error e) saveOk
            = (if saveOk then .reraisedOriginal true else .raisedSaveError)) ∧
    (∀ saveOk : Bool, core_dump_wrapper (.ok ()) saveOk = .returned) := by
  refine ⟨?_, ?_, fun _ => rfl⟩
  · rintro ⟨cls, msg⟩ saveOk h
    simp only [interceptPolicy, Bool.or_eq_true, decide_eq_true_eq] at h
    cases cls <;> simp_all [exception_handler, core_dump_wrapper]
  · rintro ⟨cls, msg⟩ saveOk h
    simp only [interceptPolicy, Bool.or_eq_true, decide_eq_true_eq] at h
    cases cls <;> simp_all [exception_handler, core_dump_wrapper]

/-- Witness for `c5_interceptor_amended`: a KeyboardInterrupt, a failure
whose message names SIGTERM, and an ordinary failure with a successful
save. -/
theorem c5_interceptor_amended_witness :
    exception_handler ⟨.keyboardInterrupt, ""⟩ true = .passthrough ∧
    exception_handler ⟨.otherExc, "Received SIGTERM, shutting down"⟩ true
      = .passthrough ∧
    exception_handler ⟨.otherExc, "boom"⟩ true = .snapshotSaved ∧
    core_dump_wrapper (.error ⟨.otherExc, "boom"⟩) true = .reraisedOriginal true := by
  have h := c5_interceptor_amended
  refine ⟨(h.1 ⟨.keyboardInterrupt, ""⟩ true (by decide)).1,
    (h.1 ⟨.otherExc, "Received SIGTERM, shutting down"⟩ true (by decide)).1, ?_, ?_⟩
  · have := (h.2.1 ⟨.otherExc, "boom"⟩ true (by decide)).1
    simpa using this
  · have := (h.2.1 ⟨.otherExc, "boom"⟩ true (by decide)).2
    simpa using this

/-! ## `dump` (`src/dpdb/__init__.py`): the guarded manual capture -/

/-- The file-system facts `dump` manipulates: whether `dpdb.lock` exists
in the target directory, and how many artifacts have been written. -/
structure FS where
  lock : Bool
  artifacts : Nat
deriving DecidableEq, Repr

/-- How a call to `dump` finishes. -/
inductive DumpRes where
  /-- warned and returned without an artifact (marker already present) -/
  | skipped
  /-- artifact written, marker removed, returned normally -/
  | saved
  /-- `save_core_dump` raised and the exception propagated -/
  | raisedSave
  /-- `os.remove(lock_file)` raised `UnboundLocalError` (a `NameError`) -/
  | raisedName
deriving DecidableEq, Repr

/-- `dpdb.dump(path, dump_one_process_only)`.  Guarded: skip if the marker
exists, else create it, save, then `os.remove(lock_file)` — but an
exception from the save propagates before the removal, leaving the marker
behind.  Unguarded: `lock_file` is never assigned, so after the save the
unconditional `os.remove(lock_file)` raises `UnboundLocalError`. -/
def dump (guard saveOk : Bool) (fs : FS) : FS × DumpRes :=
  if guard then
    if fs.lock then (fs, .skipped)
    else
      if saveOk then ({ lock := false, artifacts := fs.artifacts + 1 }, .saved)
      else ({ lock := true, artifacts := fs.artifacts }, .raisedSave)
  else
    if saveOk then ({ fs with artifacts := fs.artifacts + 1 }, .raisedName)
    else (fs, .raisedSave)

/-- C6 counterexample: a guarded capture into a directory with no marker,
whose save raises, terminates with the save failure AND the marker still
present — the marker is not removed "unconditionally", and a later guarded
attempt is skipped even though no capture is running. -/
theorem c6_counterexample :
    dump true false ⟨false, 0⟩ = (⟨true, 0⟩, .raisedSave) ∧
    (dump true false ⟨false, 0⟩).1.lock = true ∧
    dump true true ((dump true false ⟨false, 0⟩).1)
      = ((dump true false ⟨false, 0⟩).1, .skipped) := by
  decide

/-- C6 (amended): guarded capture with the marker present is skipped with
a warning and writes nothing; with no marker and a successful save it
writes one artifact and removes the marker, so an attempt overlapping the
save is skipped and after a successful call the marker is gone; but when
the save raises, the exception propagates before the removal and the
marker remains, blocking subsequent guarded captures until cleared. -/
theorem c6_guarded_dump_amended :
    (∀ (fs : FS) (saveOk : Bool), fs.lock = true →
        dump true saveOk fs = (fs, .skipped)) ∧
    (∀ fs : FS, fs.lock = false →
        dump true true fs = ({ lock := false, artifacts := fs.artifacts + 1 }, .saved)) ∧
    (∀ fs : FS, fs.lock = false →
        dump true false fs = ({ lock := true, artifacts := fs.artifacts }, .raisedSave)) := by
  refine ⟨?_, ?_, ?_⟩
  · rintro ⟨lk, a⟩ saveOk h
    subst h
    cases saveOk <;> rfl
  · rintro ⟨lk, a⟩ h
    subst h
    rfl
  · rintro ⟨lk, a⟩ h
    subst h
    rfl

/-- Witness for `c6_guarded_dump_amended`: a held marker skips; an empty
directory accepts the capture and releases the marker. -/
theorem c6_guarded_dump_amended_witness :
    dump true true ⟨true, 0⟩ = (⟨true, 0⟩, .skipped) ∧
    dump true true ⟨false, 0⟩ = (⟨false, 1⟩, .saved) ∧
    dump true false ⟨false, 3⟩ = (⟨true, 3⟩, .raisedSave) :=
  ⟨c6_guarded_dump_amended.1 ⟨true, 0⟩ true rfl,
   c6_guarded_dump_amended.2.1 ⟨false, 0⟩ rfl,
   c6_guarded_dump_amended.2.2 ⟨false, 3⟩ rfl⟩

/-- C10: `dump(path, dump_one_process_only=False)` never returns
normally: when the save succeeds, the artifact is written and the
unconditional `os.remove(lock_file)` then raises `UnboundLocalError` (a
subclass of `NameError`), `lock_file` being assigned only on the guarded
path; when the save raises, that failure propagates instead (and still no
normal return). -/
theorem c10_unguarded_dump_raises_nameerror :
    (∀ fs : FS, dump false true fs
        = ({ fs with artifacts := fs.artifacts + 1 }, .raisedName)) ∧
    (∀ (fs : FS) (saveOk : Bool),
        (dump false saveOk fs).2 = DumpRes.raisedName ∨
        (dump false saveOk fs).2 = DumpRes.raisedSave) := by
  refine ⟨fun fs => rfl, ?_⟩
  rintro ⟨lk, a⟩ saveOk
  cases saveOk
  · right; rfl
  · left; rfl

/-! ## `install_global_handler` / `uninstall_global_handler`

The relevant process-wide state: `sys.excepthook`, the
`multiprocessing.Process.__init__` slot, and the module globals
`_monkey_patch_installed` / `_original_process_init`. -/

/-- A value of the `sys.excepthook` slot. `defaultHook` is
`sys.__excepthook__`; `dpdbHook` is the handler closure installed by
`install_exception_handler`; `otherHook n` is any third-party hook. -/
inductive Hook where
  | defaultHook
  | dpdbHook
  | otherHook (n : Nat)
deriving DecidableEq, Repr

/-- A value of the `multiprocessing.Process.__init__` slot:
`_patched_process_init` or anything else (the stock initializer or a
third-party patch). -/
inductive PInit where
  | patchedInit
  | otherInit (n : Nat)
deriving DecidableEq, Repr

/-- The mutable state touched by install/uninstall. -/
structure GState where
  excepthook : Hook
  processInit : PInit
  /-- `_monkey_patch_installed` -/
  installed : Bool
  /-- `_original_process_init` -/
  savedInit : Option PInit
deriving DecidableEq, Repr

/-- `install_global_handler`: no-op when already installed; otherwise set
`sys.excepthook` to the dump handler, and (only when
`_original_process_init is None`) stash the current `Process.__init__` and
replace it with the patched one. -/
def install_global_handler (s : GState) : GState :=
  if s.installed then s
  else
    let s1 := { s with excepthook := Hook.dpdbHook }
    let s2 := if s1.savedInit = none
      then { s1 with savedInit := some s1.processInit, processInit := PInit.patchedInit }
      else s1
    { s2 with installed := true }

/-- `uninstall_global_handler`: no-op when not installed; otherwise restore
the stashed `Process.__init__` (clearing the stash) and set
`sys.excepthook = sys.__excepthook__` — the interpreter default, not the
hook that was in effect before install. -/
def uninstall_global_handler (s : GState) : GState :=
  if s.installed then
    let s1 := match s.savedInit with
      | some p => { s with processInit := p, savedInit := none }
      | none => s
    { s1 with excepthook := Hook.defaultHook, installed := false }
  else s

/-- C9 counterexample: starting from a process whose `sys.excepthook` was
a third-party hook, install followed by uninstall leaves
`sys.__excepthook__` installed instead of restoring that hook — the
pre-install state is not restored exactly. -/
theorem c9_counterexample :
    uninstall_global_handler (install_global_handler
        ⟨Hook.otherHook 7, PInit.otherInit 0, false, none⟩)
      = ⟨Hook.defaultHook, PInit.otherInit 0, false, none⟩ ∧
    uninstall_global_handler (install_global_handler
        ⟨Hook.otherHook 7, PInit.otherInit 0, false, none⟩)
      ≠ ⟨Hook.otherHook 7, PInit.otherInit 0, false, none⟩ := by
  decide

/-- C9 (amended): install and uninstall are each idempotent; from a clean
pre-install state, install followed by uninstall restores the original
`multiprocessing.Process` initializer exactly but resets the top-level
failure hook to the interpreter default `sys.__excepthook__`; the
pre-install state is therefore restored exactly precisely when the
pre-install hook was the default one. -/
theorem c9_install_uninstall_amended :
    (∀ s : GState, install_global_handler (install_global_handler s)
        = install_global_handler s) ∧
    (∀ s : GState, uninstall_global_handler (uninstall_global_handler s)
        = uninstall_global_handler s) ∧
    (∀ s : GState, s.installed = false → s.savedInit = none →
        uninstall_global_handler (install_global_handler s)
          = { s with excepthook := Hook.defaultHook }) ∧
    (∀ s : GState, s.installed = false → s.savedInit = none →
        (uninstall_global_handler (install_global_handler s)).processInit
          = s.processInit) ∧
    (∀ s : GState, s.installed = false → s.savedInit = none →
        s.excepthook = Hook.defaultHook →
        uninstall_global_handler (install_global_handler s) = s) := by
  refine ⟨?_, ?_, ?_, ?_, ?_⟩
  · rintro ⟨eh, pi, inst, si⟩
    cases inst <;> cases si <;>
      simp [install_global_handler, uninstall_global_handler]
  · rintro ⟨eh, pi, inst, si⟩
    cases inst <;> cases si <;>
      simp [install_global_handler, uninstall_global_handler]
  · rintro ⟨eh, pi, inst, si⟩ h1 h2
    simp only at h1 h2
    subst h1; subst h2
    simp [install_global_handler, uninstall_global_handler]
  · rintro ⟨eh, pi, inst, si⟩ h1 h2
    simp only at h1 h2
    subst h1; subst h2
    simp [install_global_handler, uninstall_global_handler]
  · rintro ⟨eh, pi, inst, si⟩ h1 h2 h3
    simp only at h1 h2 h3
    subst h1; subst h2; subst h3
    simp [install_global_handler, uninstall_global_handler]

/-- Witness for `c9_install_uninstall_amended` at a clean state whose hook
is the default one and at the counterexample state. -/
theorem c9_install_uninstall_amended_witness :
    uninstall_global_handler (install_global_handler
        ⟨Hook.defaultHook, PInit.otherInit 3, false, none⟩)
      = ⟨Hook.defaultHook, PInit.otherInit 3, false, none⟩ ∧
    (uninstall_global_handler (install_global_handler
        ⟨Hook.otherHook 7, PInit.otherInit 0, false, none⟩)).processInit
      = PInit.otherInit 0 ∧
    install_global_handler (install_global_handler
        ⟨Hook.defaultHook, PInit.otherInit 3, false, none⟩)
      = install_global_handler ⟨Hook.defaultHook, PInit.otherInit 3, false, none⟩ := by
  have h := c9_install_uninstall_amended
  exact ⟨h.2.2.2.2 _ rfl rfl rfl, h.2.2.2.1 _ rfl rfl,
    h.1 ⟨Hook.defaultHook, PInit.otherInit 3, false, none⟩⟩

/-! ## ReplaySession navigation (`do_up` / `do_down` / `do_f`)

The session's current frame index is a Python `int`; the frame count `N`
is fixed by the loaded dump.  `do_up(count)` checks only the lower bound,
`do_down(count)` only the upper one, `do_f(num)` both. -/

/-- `do_up`: `new_index = current - count`; report "*** Oldest frame" and
stay when `new_index < 0`, else move.  (Note `do_up` never consults the
frame count.) -/
def do_up (_N : Nat) (count i : Int) : Int :=
  if i - count < 0 then i else i - count

/-- `do_down`: `new_index = current + count`; report "*** Newest frame"
and stay when `new_index >= len(frames)`, else move. -/
def do_down (N : Nat) (count i : Int) : Int :=
  if i + count ≥ (N : Int) then i else i + count

/-- `do_f`: absolute jump, rejected (with an out-of-range message) unless
`0 <= num < len(frames)`. -/
def do_f (N : Nat) (num i : Int) : Int :=
  if num < 0 ∨ num ≥ (N : Int) then i else num

/-- A parsed navigation command (`up`/`down` take the parsed `count`
argument, default 1; `f` takes the frame number). -/
inductive NavCmd where
  | up (count : Int)
  | down (count : Int)
  | selF (num : Int)
deriving DecidableEq, Repr

def navStep (N : Nat) (i : Int) : NavCmd → Int
  | .up count => do_up N count i
  | .down count => do_down N count i
  | .selF num => do_f N num i

/-- A whole command sequence applied to the session index. -/
def navRun (N : Nat) (cmds : List NavCmd) (i : Int) : Int :=
  cmds.foldl (navStep N) i

/-- Arguments under which the bound checks of the source are sufficient:
nonnegative counts for `up`/`down` (`f` checks both bounds itself). -/
def cmdOk : NavCmd → Prop
  | .up count => 0 ≤ count
  | .down count => 0 ≤ count
  | .selF _ => True

/-- C7 counterexample: on a 1-frame session at index 0, `down -1` sets the
index to −1 and `up -1` sets it to 1 — both outside `[0, 0]` — because
each command checks only one bound and a negative count moves past the
other. -/
theorem c7_counterexample :
    navRun 1 [NavCmd.down (-1)] 0 = -1 ∧
    navRun 1 [NavCmd.up (-1)] 0 = 1 ∧
    ¬ (0 ≤ (-1 : Int) ∧ (-1 : Int) < (1 : Nat)) ∧
    ¬ (0 ≤ (1 : Int) ∧ (1 : Int) < (1 : Nat)) := by
  decide

theorem navStep_bounds (N : Nat) (i : Int) (c : NavCmd)
    (h0 : 0 ≤ i) (h1 : i < N) (hc : cmdOk c) :
    0 ≤ navStep N i c ∧ navStep N i c < N := by
  cases c with
  | up count =>
      simp only [cmdOk] at hc
      simp only [navStep, do_up]
      split <;> omega
  | down count =>
      simp only [cmdOk] at hc
      simp only [navStep, do_down]
      split <;> omega
  | selF num =>
      simp only [navStep, do_f]
      split
      · exact ⟨h0, h1⟩
      · omega

/-- C7 (amended): for every session over an N-frame dump (N ≥ 1) and every
sequence of `up`, `down` and frame-select commands whose `up`/`down`
counts are NONNEGATIVE (frame-select may take any integer), the current
frame index stays within `[0, N−1]`, and a move or jump that would exceed
the checked bound reports and leaves the index unchanged; with negative
counts, `up` can overshoot the newest end and `down` the oldest end, since
each checks only one bound. -/
theorem c7_navigation_amended :
    (∀ (N : Nat) (cmds : List NavCmd) (i : Int), 0 ≤ i → i < N →
        (∀ c ∈ cmds, cmdOk c) →
        0 ≤ navRun N cmds i ∧ navRun N cmds i < N) ∧
    (∀ (N : Nat) (count i : Int), i - count < 0 → do_up N count i = i) ∧
    (∀ (N : Nat) (count i : Int), i + count ≥ (N : Int) → do_down N count i = i) ∧
    (∀ (N : Nat) (num i : Int), num < 0 ∨ num ≥ (N : Int) → do_f N num i = i) := by
  refine ⟨?_, ?_, ?_, ?_⟩
  · intro N cmds
    induction cmds with
    | nil => intro i h0 h1 _; exact ⟨h0, h1⟩
    | cons c rest ih =>
      intro i h0 h1 hall
      have hc := hall c (List.mem_cons_self c rest)
      have hstep := navStep_bounds N i c h0 h1 hc
      have := ih (navStep N i c) hstep.1 hstep.2
        (fun d hd => hall d (List.mem_cons_of_mem c hd))
      simpa [navRun, List.foldl_cons] using this
  · intro N count i h
    simp [do_up, h]
  · intro N count i h
    simp [do_down, h]
  · intro N num i h
    simp only [do_f, if_pos h]

/-- Witness for `c7_navigation_amended`: a three-command session over two
frames, plus each per-command clamp at a concrete boundary input. -/
theorem c7_navigation_amended_witness :
    (0 ≤ navRun 2 [NavCmd.up 1, NavCmd.down 5, NavCmd.selF 1] 1 ∧
      navRun 2 [NavCmd.up 1, NavCmd.down 5, NavCmd.selF 1] 1 < 2) ∧
    do_up 1 5 0 = 0 ∧ do_down 1 5 0 = 0 ∧ do_f 1 5 0 = 0 := by
  have h := c7_navigation_amended
  refine ⟨h.1 2 [NavCmd.up 1, NavCmd.down 5, NavCmd.selF 1] 1 (by decide) (by decide) ?_,
    h.2.1 1 5 0 (by decide), h.2.2.1 1 5 0 (by decide), h.2.2.2 1 5 0 (by decide)⟩
  intro c hc
  fin_cases hc <;> simp [cmdOk]

/-! ## ReplaySession namespaces and evaluation
(`PostMortemDebugger.__init__` / `default` / `_execute_code`)

A per-frame namespace is a Python dict: association list with unique
keys, insertion order preserved.  User input is abstracted by what the two
`compile` calls and the compiled code do: `evalCompile = none` models
`compile(code, "<debugger>", "eval")` raising `SyntaxError`, and likewise
for `execCompile`; a compiled program is a function from the namespace to
the updated namespace plus a result or a raised error (`synFlag` marks a
`SyntaxError`, which the `except SyntaxError` arm catches even when raised
at run time; every modelled error is `Exception`-level, matching the
`except Exception` handlers — `BaseException` is outside the model). -/

/-- A per-frame evaluation namespace. -/
abbrev Ns := List (String × SerVal)

/-- Python `d[k]` lookup (`None`-free: `none` = `KeyError`). -/
def dictGet : Ns → String → Option SerVal
  | [], _ => none
  | (k1, v1) :: rest, k => if k1 = k then some v1 else dictGet rest k

/-- Python `d[k] = v`: replace in place when the key exists (order kept),
else append. -/
def dictSet : Ns → String → SerVal → Ns
  | [], k, v => [(k, v)]
  | (k1, v1) :: rest, k, v =>
    if k1 = k then (k1, v) :: rest else (k1, v1) :: dictSet rest k v

/-- Python `d.update(e)`: set each binding of `e` in order. -/
def dictUpdate (d e : Ns) : Ns :=
  e.foldl (fun acc p => dictSet acc p.1 p.2) d

/-- The `__init__` loop: one namespace per frame,
`namespace = frame.globals_dict.copy(); namespace.update(frame.locals_dict)`. -/
def mkNamespaces (frames : List FrameInfo) : List Ns :=
  frames.map fun f => dictUpdate f.globals_dict f.locals_dict

/-- A raised evaluation error; `synFlag` marks a `SyntaxError`. -/
structure PyErr where
  synFlag : Bool
  msg : String
deriving DecidableEq, Repr

/-- A piece of user input, abstracted by its two compilations:
`evalCompile` is the `mode="eval"` compilation (`none` = `SyntaxError`),
producing a program returning a value; `execCompile` the `mode="exec"`
one, producing a statement program. -/
structure EvalCode where
  evalCompile : Option (Ns → Ns × Except PyErr SerVal)
  execCompile : Option (Ns → Ns × Option PyErr)

/-- Outcome of `_execute_code`: an expression value (printed when not
`None`), silent statement completion, or an error re-raised to `default`. -/
inductive ExecOutcome where
  | value (v : SerVal)
  | finished
  | raised (e : PyErr)
deriving DecidableEq, Repr

/-- The statement fallback of `_execute_code`: compile as `exec` (a
`SyntaxError` there escapes to the caller), then run, errors re-raised. -/
def runExecPath (c : EvalCode) (ns : Ns) : Ns × ExecOutcome :=
  match c.execCompile with
  | some q =>
      match q ns with
      | (ns2, none) => (ns2, .finished)
      | (ns2, some e) => (ns2, .raised e)
  | none => (ns, .raised ⟨true, "invalid syntax"⟩)

/-- `PostMortemDebugger._execute_code`: try expression semantics first;
on `SyntaxError` (at compile time or raised by the evaluated code) fall
back to statement semantics on the current namespace; re-raise any other
error to the caller. -/
def execute_code (c : EvalCode) (ns : Ns) : Ns × ExecOutcome :=
  match c.evalCompile with
  | none => runExecPath c ns
  | some p =>
      match p ns with
      | (ns2, .ok v) => (ns2, .value v)
      | (ns2, .error e) => if e.synFlag then runExecPath c ns2 else (ns2, .raised e)

/-- Outcome of `PostMortemDebugger.default`: printed value, silent
completion, or a displayed error — never an escaping one. -/
inductive DefOutcome where
  | printedVal (v : SerVal)
  | done
  | displayed (e : PyErr)
deriving DecidableEq, Repr

/-- `PostMortemDebugger.default`: run `_execute_code`, catching and
displaying every (`Exception`-level) error. -/
def pdbDefault (c : EvalCode) (ns : Ns) : Ns × DefOutcome :=
  match execute_code c ns with
  | (ns2, .value v) => (ns2, .printedVal v)
  | (ns2, .finished) => (ns2, .done)
  | (ns2, .raised e) => (ns2, .displayed e)

/-- One evaluation at frame `i` of the session: `default` runs on
`frame_namespaces[current_frame_index]` in place (`_get_namespace`
substitutes a fresh `{}` when the index is past the list, whose mutations
are then lost). -/
def sessionEval (nss : List Ns) (i : Nat) (c : EvalCode) : List Ns × DefOutcome :=
  let r := pdbDefault c (nss.getD i [])
  (nss.set i r.1, r.2)

theorem dictGet_dictSet_self (d : Ns) (k : String) (v : SerVal) :
    dictGet (dictSet d k v) k = some v := by
  induction d with
  | nil => simp [dictGet, dictSet]
  | cons p rest ih =>
    rcases p with ⟨k1, v1⟩
    by_cases h : k1 = k
    · simp [dictGet, dictSet, h]
    · simp [dictGet, dictSet, h, ih]

theorem dictGet_dictSet_ne (d : Ns) (k k1 : String) (v : SerVal) (h : k1 ≠ k) :
    dictGet (dictSet d k1 v) k = dictGet d k := by
  induction d with
  | nil => simp [dictGet, dictSet, h]
  | cons p rest ih =>
    rcases p with ⟨k2, v2⟩
    simp only [dictSet]
    by_cases h2 : k2 = k1
    · rw [if_pos h2]
      subst h2
      simp [dictGet, h]
    · rw [if_neg h2]
      by_cases h3 : k2 = k
      · simp [dictGet, h3]
      · simp [dictGet, h3, ih]

theorem dictGet_eq_none_of_not_mem (d : Ns) (k : String)
    (h : k ∉ d.map Prod.fst) : dictGet d k = none := by
  induction d with
  | nil => rfl
  | cons p rest ih =>
    rcases p with ⟨k1, v1⟩
    simp only [List.map_cons, List.mem_cons] at h
    push_neg at h
    have h1 : ¬ k1 = k := fun hh => h.1 hh.symm
    simp [dictGet, h1, ih h.2]

theorem dictUpdate_get_of_none (l : Ns) : ∀ (g : Ns) (k : String),
    dictGet l k = none → dictGet (dictUpdate g l) k = dictGet g k := by
  induction l with
  | nil => intro g k _; rfl
  | cons p rest ih =>
    rcases p with ⟨k1, v1⟩
    intro g k h
    simp only [dictGet] at h
    by_cases h1 : k1 = k
    · rw [if_pos h1] at h
      exact absurd h (by simp)
    · rw [if_neg h1] at h
      show dictGet (dictUpdate (dictSet g k1 v1) rest) k = dictGet g k
      rw [ih (dictSet g k1 v1) k h, dictGet_dictSet_ne g k k1 v1 h1]

theorem dictUpdate_get_of_some (l : Ns) : ∀ (g : Ns) (k : String) (v : SerVal),
    (l.map Prod.fst).Nodup → dictGet l k = some v →
    dictGet (dictUpdate g l) k = some v := by
  induction l with
  | nil => intro g k v _ h; simp [dictGet] at h
  | cons p rest ih =>
    rcases p with ⟨k1, v1⟩
    intro g k v hnod h
    simp only [List.map_cons, List.nodup_cons] at hnod
    simp only [dictGet] at h
    by_cases h1 : k1 = k
    · subst h1
      rw [if_pos rfl] at h
      injection h with h
      subst h
      show dictGet (dictUpdate (dictSet g k1 v1) rest) k1 = some v1
      rw [dictUpdate_get_of_none rest (dictSet g k1 v1) k1
          (dictGet_eq_none_of_not_mem rest k1 hnod.1),
        dictGet_dictSet_self]
    · rw [if_neg h1] at h
      exact ih (dictSet g k1 v1) k v hnod.2 h

/-- C8: each frame's namespace is seeded exactly once at construction as
the frame's module-level bindings updated with its local bindings (a local
binding wins on collision, other names fall through to the module-level
binding); evaluation tries expression compilation first and consults the
statement path only on `SyntaxError`; every error raised out of
`_execute_code` is caught and displayed by `default` (the session
continues with an outcome, never a propagating error); and an evaluation
at frame `i` can change no namespace other than the `i`-th. -/
theorem c8_eval_semantics :
    (∀ (g l : Ns) (k : String) (v : SerVal), (l.map Prod.fst).Nodup →
        dictGet l k = some v → dictGet (dictUpdate g l) k = some v) ∧
    (∀ (g l : Ns) (k : String), dictGet l k = none →
        dictGet (dictUpdate g l) k = dictGet g k) ∧
    (∀ frames : List FrameInfo, mkNamespaces frames
        = frames.map fun f => dictUpdate f.globals_dict f.locals_dict) ∧
    (∀ (c : EvalCode) (ns : Ns), c.evalCompile = none →
        execute_code c ns = runExecPath c ns) ∧
    (∀ (c : EvalCode) (ns ns2 : Ns) (p : Ns → Ns × Except PyErr SerVal)
        (v : SerVal), c.evalCompile = some p → p ns = (ns2, Except.ok v) →
        execute_code c ns = (ns2, ExecOutcome.value v)) ∧
    (∀ (c : EvalCode) (ns ns2 : Ns) (p : Ns → Ns × Except PyErr SerVal)
        (e : PyErr), c.evalCompile = some p → p ns = (ns2, Except.error e) →
        e.synFlag = false → execute_code c ns = (ns2, ExecOutcome.raised e)) ∧
    (∀ (c : EvalCode) (ns ns2 : Ns) (p : Ns → Ns × Except PyErr SerVal)
        (e : PyErr), c.evalCompile = some p → p ns = (ns2, Except.error e) →
        e.synFlag = true → execute_code c ns = runExecPath c ns2) ∧
    (∀ (c : EvalCode) (ns ns2 : Ns) (e : PyErr),
        execute_code c ns = (ns2, ExecOutcome.raised e) →
        pdbDefault c ns = (ns2, DefOutcome.displayed e)) ∧
    (∀ (nss : List Ns) (i j : Nat) (c : EvalCode), j ≠ i →
        ((sessionEval nss i c).1)[j]? = nss[j]?) := by
  refine ⟨fun g l k v hn h => dictUpdate_get_of_some l g k v hn h,
    fun g l k h => dictUpdate_get_of_none l g k h, fun _ => rfl,
    ?_, ?_, ?_, ?_, ?_, ?_⟩
  · intro c ns h
    simp [execute_code, h]
  · intro c ns ns2 p v hc hp
    simp [execute_code, hc, hp]
  · intro c ns ns2 p e hc hp hs
    simp [execute_code, hc, hp, hs]
  · intro c ns ns2 p e hc hp hs
    simp [execute_code, hc, hp, hs]
  · intro c ns ns2 e h
    simp [pdbDefault, h]
  · intro nss i j c h
    simp [sessionEval, List.getElem?_set_ne (Ne.symm h)]

/-- Concrete input whose expression compilation succeeds and evaluates to
the printable value `2` (e.g. the session line `1+1`). -/
def evalOkCode : EvalCode :=
  { evalCompile := some fun ns => (ns, Except.ok (SerVal.str "2"))
    execCompile := none }

/-- Concrete input whose expression evaluation raises an ordinary error
(e.g. the session line `1/0`). -/
def evalErrCode : EvalCode :=
  { evalCompile := some fun ns =>
      (ns, Except.error ⟨false, "ZeroDivisionError: division by zero"⟩)
    execCompile := none }

/-- Witness for `c8_eval_semantics`: a local binding shadowing a global
one, a successful expression evaluation, a displayed division error, and
untouched sibling namespaces. -/
theorem c8_eval_semantics_witness :
    dictGet (dictUpdate [("a", SerVal.str "g"), ("b", SerVal.str "gb")]
        [("b", SerVal.str "loc")]) "b" = some (SerVal.str "loc") ∧
    dictGet (dictUpdate [("a", SerVal.str "g"), ("b", SerVal.str "gb")]
        [("b", SerVal.str "loc")]) "a" = some (SerVal.str "g") ∧
    execute_code evalOkCode [] = ([], ExecOutcome.value (SerVal.str "2")) ∧
    pdbDefault evalErrCode []
      = ([], DefOutcome.displayed ⟨false, "ZeroDivisionError: division by zero"⟩) ∧
    ((sessionEval [[("x", SerVal.str "0")], [("y", SerVal.str "1")]] 0 evalErrCode).1)[1]?
      = some [("y", SerVal.str "1")] := by
  have h := c8_eval_semantics
  refine ⟨h.1 [("a", SerVal.str "g"), ("b", SerVal.str "gb")]
      [("b", SerVal.str "loc")] "b" (SerVal.str "loc") (by decide) (by decide),
    ?_, ?_, ?_, ?_⟩
  · have := h.2.1 [("a", SerVal.str "g"), ("b", SerVal.str "gb")]
      [("b", SerVal.str "loc")] "a" (by decide)
    rw [this]; decide
  · exact h.2.2.2.2.1 evalOkCode [] [] _ (SerVal.str "2") rfl rfl
  · have hex := h.2.2.2.2.2.1 evalErrCode [] [] _
      ⟨false, "ZeroDivisionError: division by zero"⟩ rfl rfl rfl
    exact h.2.2.2.2.2.2.2.1 evalErrCode [] []
      ⟨false, "ZeroDivisionError: division by zero"⟩ hex
  · exact h.2.2.2.2.2.2.2.2 [[("x", SerVal.str "0")], [("y", SerVal.str "1")]]
      0 1 evalErrCode (by decide)

end Dpdb
